import Mathlib

/-!
Verification of the bi1_delivery order bot: a shallow embedding of the
session store (`storage.py`), the email validator and order formatter
(`handlers.py`), and the conversation handlers (`handlers.py`), with
theorems settling the specified properties.

Remote API calls are modelled by oracle arguments describing the outcome
of each call (success payload, API error with HTTP status, or an
unexpected exception); handlers are pure functions from the current
session table, scratch state and oracles to an event trace, the updated
states and the next conversation state.
-/

set_option maxHeartbeats 1000000

/-! ## Session store (`storage.py`)

The SQLite table `sessions(telegram_id INTEGER PRIMARY KEY, access_token
TEXT NOT NULL)` is modelled as an association list from user id to token;
the primary key invariant is maintained by `save_token` deleting any
prior row for the key before inserting (the semantics of
`INSERT OR REPLACE`). -/

abbrev Sessions := List (Int × String)

/-- Model of `storage.save_token`: `INSERT OR REPLACE INTO sessions`. -/
def save_token (sessions : Sessions) (telegram_id : Int) (access_token : String) : Sessions :=
  (telegram_id, access_token) :: sessions.filter (fun row => row.1 != telegram_id)

/-- Model of `storage.get_token`: `SELECT access_token FROM sessions WHERE telegram_id = ?`,
returning `none` when no row exists. -/
def get_token (sessions : Sessions) (telegram_id : Int) : Option String :=
  sessions.lookup telegram_id

/-- Model of `storage.delete_token`: `DELETE FROM sessions WHERE telegram_id = ?`. -/
def delete_token (sessions : Sessions) (telegram_id : Int) : Sessions :=
  sessions.filter (fun row => row.1 != telegram_id)

/-! ## Email validation (`handlers.is_valid_email`)

The source checks `re.match(r'^[a-zA-Z0-9._%+-]+@[a-zA-Z0-9.-]+\.[a-zA-Z]{2,}$', email)`.
The regex is embedded by its backtracking semantics: the string matches
iff it splits as `local ++ "@" ++ domain ++ "." ++ tld ++ tail` with a
nonempty local part over `[a-zA-Z0-9._%+-]`, a nonempty domain part over
`[a-zA-Z0-9.-]`, a tld of at least two ASCII letters, and a tail at which
Python's `$` matches: `$` accepts the end of the string or the position
just before a single newline that ends the string, so the tail is either
empty or exactly one final newline (e.g. the code accepts `"a@b.cc\n"`). -/

/-- Character class `[a-zA-Z0-9._%+-]` of the local part in the source regex. -/
def localChar (c : Char) : Bool :=
  c.isAlpha || c.isDigit || c == '.' || c == '_' || c == '%' || c == '+' || c == '-'

/-- Character class `[a-zA-Z0-9.-]` of the domain part in the source regex. -/
def domainChar (c : Char) : Bool :=
  c.isAlpha || c.isDigit || c == '.' || c == '-'

/-- All ways of writing a list as `front ++ back`. -/
def splits {α : Type} : List α → List (List α × List α)
  | [] => [([], [])]
  | a :: as => ([], a :: as) :: (splits as).map (fun p => (a :: p.1, p.2))

/-- Whether Python's `$` matches with this suffix remaining: at the end
of the string, or just before a newline that ends the string. -/
def dollarOk (v : List Char) : Bool :=
  v == [] || v == ['\n']

/-- Acceptance of one split of the material after the domain's dot into
a tld and the remainder left for `$` (`[a-zA-Z]{2,}$`). -/
def tldSplitOk (p : List Char × List Char) : Bool :=
  decide (2 ≤ p.1.length) && p.1.all Char.isAlpha && dollarOk p.2

/-- Acceptance of a split of the domain remainder at `'.'` followed by a
tld of at least two letters at which `$` matches (`\.[a-zA-Z]{2,}$`). -/
def domSplitOk (p : List Char × List Char) : Bool :=
  match p with
  | (d, c :: t) => c == '.' && !d.isEmpty && d.all domainChar && (splits t).any tldSplitOk
  | (_, []) => false

/-- Acceptance of a split of the whole string at `'@'`
(`^[a-zA-Z0-9._%+-]+@` followed by a matching domain remainder). -/
def atSplitOk (p : List Char × List Char) : Bool :=
  match p with
  | (l, c :: rest) => c == '@' && !l.isEmpty && l.all localChar && (splits rest).any domSplitOk
  | (_, []) => false

/-- Model of `handlers.is_valid_email`: `bool(re.match(pattern, email))`
for the source pattern, by exhaustive backtracking over all splits. -/
def is_valid_email (email : String) : Bool :=
  (splits email.data).any atSplitOk

/-- Modelled from the spec: the spec states the regex as
`^[\w.+-]+@[\w.-]+\.[a-zA-Z]{2,}$`; `\w` is read as `[a-zA-Z0-9_]`.
This definition follows the spec's words, to be compared against
`is_valid_email`, which follows the source. -/
def specWordChar (c : Char) : Bool :=
  c.isAlpha || c.isDigit || c == '_'

/-- Modelled from the spec: the local-part class `[\w.+-]` of the spec's regex. -/
def specLocalChar (c : Char) : Bool :=
  specWordChar c || c == '.' || c == '+' || c == '-'

/-- Modelled from the spec: the domain-part class `[\w.-]` of the spec's regex. -/
def specDomainChar (c : Char) : Bool :=
  specWordChar c || c == '.' || c == '-'

/-- Modelled from the spec: a string matches the spec's regex
`^[\w.+-]+@[\w.-]+\.[a-zA-Z]{2,}$` iff it decomposes as local, `@`,
domain, `.`, tld with the spec's character classes, followed by a tail
at which Python's `$` matches (empty, or a single final newline). -/
def specRegexMatch (s : String) : Prop :=
  ∃ l d t v, s.data = l ++ '@' :: (d ++ '.' :: (t ++ v)) ∧ l ≠ [] ∧
    l.all specLocalChar = true ∧ d ≠ [] ∧ d.all specDomainChar = true ∧
    2 ≤ t.length ∧ t.all Char.isAlpha = true ∧ (v = [] ∨ v = ['\n'])

/-! ## Python values and the order formatter (`handlers.py`)

`format_order_details` receives the JSON payload returned verbatim by
`api.get_order_by_id`, so its input can be any JSON-decoded Python value.
Values are embedded as `PyVal`; attribute errors and type errors raised
by `.get` and by iteration are embedded as `Except String`, the string
being the exception text `str(e)`. -/

inductive PyVal : Type where
  | none : PyVal
  | bool : Bool → PyVal
  | int : Int → PyVal
  | str : String → PyVal
  | list : List PyVal → PyVal
  | dict : List (String × PyVal) → PyVal

/-- Python type name of a value, as it appears in exception messages. -/
def PyVal.typeName : PyVal → String
  | .none => "NoneType"
  | .bool _ => "bool"
  | .int _ => "int"
  | .str _ => "str"
  | .list _ => "list"
  | .dict _ => "dict"

/-- Whether a value is a Python dict. -/
def PyVal.isDict : PyVal → Bool
  | .dict _ => true
  | _ => false

/-- Model of Python `value.get(key, default)`: succeeds on a dict,
raises `AttributeError` on anything else. -/
def pyGet (v : PyVal) (key : String) (dflt : PyVal) : Except String PyVal :=
  match v with
  | .dict kvs => .ok ((kvs.lookup key).getD dflt)
  | v => .error ("'" ++ v.typeName ++ "' object has no attribute 'get'")

/-- Model of Python iteration `for item in v`: lists yield their
elements, strings their characters, dicts their keys; other values raise
`TypeError`. -/
def pyIter : PyVal → Except String (List PyVal)
  | .list xs => .ok xs
  | .str s => .ok (s.data.map fun c => .str (String.singleton c))
  | .dict kvs => .ok (kvs.map fun kv => .str kv.1)
  | v => .error ("'" ++ v.typeName ++ "' object is not iterable")

/-- Python truthiness `bool(v)`. -/
def pyTruthy : PyVal → Bool
  | .none => false
  | .bool b => b
  | .int n => n != 0
  | .str s => !(s == "")
  | .list xs => !xs.isEmpty
  | .dict kvs => !kvs.isEmpty

/-- Python `v == 1` for the modelled values (`True == 1` holds in Python). -/
def pyEqOne : PyVal → Bool
  | .int n => n == 1
  | .bool b => b
  | _ => false

mutual

/-- Python `repr` for the modelled values. -/
def pyRepr : PyVal → String
  | .none => "None"
  | .bool true => "True"
  | .bool false => "False"
  | .int n => toString n
  | .str s => "'" ++ s ++ "'"
  | .list xs => "[" ++ pyReprItems xs ++ "]"
  | .dict kvs => "\x7b" ++ pyReprPairs kvs ++ "\x7d"

/-- Comma-separated `repr`s of list elements. -/
def pyReprItems : List PyVal → String
  | [] => ""
  | [x] => pyRepr x
  | x :: xs => pyRepr x ++ ", " ++ pyReprItems xs

/-- Comma-separated `repr`s of dict entries. -/
def pyReprPairs : List (String × PyVal) → String
  | [] => ""
  | [kv] => "'" ++ kv.1 ++ "': " ++ pyRepr kv.2
  | kv :: kvs => "'" ++ kv.1 ++ "': " ++ pyRepr kv.2 ++ ", " ++ pyReprPairs kvs

end

/-- Python `str(v)`: identity on strings, `repr` otherwise. -/
def pyStr : PyVal → String
  | .str s => s
  | v => pyRepr v

/-- The character list of `handlers.escape_markdown`'s `special_chars`
(backtick, braces written via their code points). -/
def special_chars : List Char :=
  ['_', '*', '[', ']', '(', ')', '~', Char.ofNat 96, '>', '#', '+', '-', '=', '|',
   Char.ofNat 123, Char.ofNat 125, '.', '!']

/-- Model of `handlers.escape_markdown`: backslash-escape each special
character of `str(text)`. -/
def escape_markdown (text : PyVal) : String :=
  String.join ((pyStr text).data.map fun c =>
    if special_chars.contains c then "\\" ++ String.singleton c else String.singleton c)

/-- Model of the per-item block of `handlers.format_order_details`
(lines 29-40): field accesses in source order, each defaulting, any
attribute error propagating. -/
def format_item (item : PyVal) : Except String String := do
  let additional ← pyGet item "additional" (.dict [])
  let quantity ← pyGet additional "quantity" (.int 0)
  let name ← pyGet item "name" (.str "Unknown Item")
  let formatted_price ← pyGet item "formatted_price" (.str "N/A")
  let formatted_total ← pyGet item "formatted_total" (.str "N/A")
  pure ("\n  • " ++ escape_markdown name ++
        "\n    Quantity: " ++ escape_markdown (.str (pyStr quantity)) ++
        "\n    Price: " ++ escape_markdown formatted_price ++
        "\n    Total: " ++ escape_markdown formatted_total)

/-- Model of the `try` body of `handlers.format_order_details`
(lines 23-70): defensive field projection and message assembly; an
exception anywhere surfaces as `.error`. -/
def format_body (order_data : PyVal) : Except String String := do
  let data ← pyGet order_data "data" (.dict [])
  let itemsVal ← pyGet data "items" (.list [])
  let items ← pyIter itemsVal
  let itemTexts ← items.mapM format_item
  let items_text := String.join itemTexts
  let order_id ← pyGet data "id" (.str "N/A")
  let state ← pyGet data "status" (.str "Unknown")
  let created_at ← pyGet data "created_at" (.str "N/A")
  let currency ← pyGet data "order_currency_code" (.str "N/A")
  let sub_total ← pyGet data "formatted_sub_total" (.str "0.00")
  let shipping ← pyGet data "formatted_shipping_amount" (.str "0.00")
  let tax ← pyGet data "formatted_tax_amount" (.str "0.00")
  let discount ← pyGet data "formatted_discount_amount" (.str "0.00")
  let grand_total ← pyGet data "formatted_grand_total" (.str "0.00")
  let total_qty ← pyGet data "total_qty" (.int 0)
  let email_sent_val ← pyGet data "email_sent" PyVal.none
  let email_sent := if pyEqOne email_sent_val then "Yes" else "No"
  pure ("📦 *Order \\#" ++ escape_markdown (.str (pyStr order_id)) ++ "*\n\n" ++
        "*Status:* `" ++ escape_markdown state ++ "`\n" ++
        "*Date:* `" ++ escape_markdown created_at ++ "`\n" ++
        "*Currency:* " ++ escape_markdown currency ++ "\n\n" ++
        "💰 *Order Summary*\n" ++
        "Subtotal: `" ++ escape_markdown sub_total ++ "`\n" ++
        "Shipping: `" ++ escape_markdown shipping ++ "`\n" ++
        "Tax: `" ++ escape_markdown tax ++ "`\n" ++
        "Discount: `" ++ escape_markdown discount ++ "`\n" ++
        "*Total: `" ++ escape_markdown grand_total ++ "`*\n\n" ++
        "🛍️ *Items:*" ++ items_text ++ "\n\n" ++
        "📊 *Additional Info*\n" ++
        "Total Items: " ++ escape_markdown (.str (pyStr total_qty)) ++ "\n" ++
        "Email Sent: " ++ email_sent)

/-- Model of the id lookup inside the `except` branch of
`handlers.format_order_details` (line 74):
`order_data.get('data', {}).get('id', 'N/A')` — itself fallible. -/
def recover_id (order_data : PyVal) : Except String PyVal :=
  match pyGet order_data "data" (PyVal.dict []) with
  | .error e => .error e
  | .ok d => pyGet d "id" (PyVal.str "N/A")

/-- Model of `handlers.format_order_details`: run the `try` body; on an
exception build the error string of line 74, whose own field accesses can
raise and propagate out of the function. -/
def format_order_details (order_data : PyVal) : Except String String :=
  match format_body order_data with
  | .ok s => .ok s
  | .error e =>
    match recover_id order_data with
    | .ok idv => .ok ("Ошибка форматирования заказа " ++ pyStr idv ++ ": " ++ e)
    | .error e2 => .error e2

/-- Whether an `Except` computation returned normally. -/
def exceptOk {ε α : Type} : Except ε α → Bool
  | .ok _ => true
  | .error _ => false

/-- Model of the customer-phone extraction in `handlers.ask_order_id`
(line 196): `order_data.get('data', {}).get('customer', {}).get('phone')`. -/
def extract_phone (order_data : PyVal) : Except String PyVal :=
  match pyGet order_data "data" (PyVal.dict []) with
  | .error e => .error e
  | .ok d =>
    match pyGet d "customer" (PyVal.dict []) with
    | .error e => .error e
    | .ok c => pyGet c "phone" PyVal.none

/-! ## Dialogue controller (`handlers.py`)

Conversation states are `ASK_EMAIL, ASK_PASSWORD, ASK_ORDER_ID,
WAITING_FOR_OTP = range(4)` plus `ConversationHandler.END`. Each handler
is embedded as a pure function; the outcome of each remote call is an
oracle argument (`ok`, `APIError status message`, or a non-`APIError`
exception), and the handler returns the trace of outbound replies and
API calls, the updated scratch state, the updated session table, and the
next conversation state. -/

inductive ConvState : Type where
  | ASK_EMAIL
  | ASK_PASSWORD
  | ASK_ORDER_ID
  | WAITING_FOR_OTP
  | END
deriving DecidableEq, Repr

/-- Outbound messages of `handlers.py`, one constructor per distinct
`reply_text` call site (server-provided text carried as payload). -/
inductive Msg : Type where
  | alreadyAuthorized
  | welcomeAskEmail
  | authSuccess
  | authFailed (message : String)
  | unexpectedErrorRestart
  | sessionExpired
  | phoneNotFound
  | orderSummary (text : String)
  | otpSent
  | otpSendFailed (message : String)
  | orderFetchError (message : String)
  | unexpectedErrorOrder
  | otpVerified
  | otpInvalid (message : String)
  | sessionErrorRetry
  | unexpectedErrorOtp
  | loggedOut
  | cancelled
deriving DecidableEq, Repr

/-- Trace events: replies sent to the user and remote API calls made, in
program order. -/
inductive Ev : Type where
  | reply (m : Msg)
  | callAuthenticate (email : String)
  | callGetOrder (order_id : String) (token : String)
  | callCreateOtp (phone : PyVal)
  | callVerifyOtp (phone : PyVal) (otp : String)

/-- The per-conversation scratch state `context.user_data`: the four keys
the handlers write, each absent in a fresh conversation
(`authenticated` is only ever written `True`; absence is modelled as
`false`). -/
structure Scratch : Type where
  email : Option String := none
  authenticated : Bool := false
  current_order : Option PyVal := none
  customer_phone : Option PyVal := none

/-- The cleared scratch state, the result of `context.user_data.clear()`. -/
def Scratch.empty : Scratch := {}

/-- Result of one handler invocation: event trace, updated scratch,
updated session table, next conversation state. -/
structure HOut : Type where
  events : List Ev
  scratch : Scratch
  sessions : Sessions
  next : ConvState

/-- Oracle for `api.authenticate_user`. -/
inductive AuthResult : Type where
  | ok (token : String)
  | apiErr (status : Int) (message : String)
  | exn (message : String)

/-- Oracle for `api.get_order_by_id`. -/
inductive FetchResult : Type where
  | ok (payload : PyVal)
  | apiErr (status : Int) (message : String)
  | exn (message : String)

/-- Oracle for `api.create_otp` and `api.verify_otp`. -/
inductive OtpCallResult : Type where
  | ok
  | apiErr (status : Int) (message : String)
  | exn (message : String)

/-- Model of `handlers.start` (lines 83-109): if the user has a truthy
stored token, go straight to `ASK_ORDER_ID`; otherwise clear the scratch
and ask for the email. `if token:` is Python truthiness, so an
empty-string token takes the no-session branch. -/
def start (uid : Int) (sessions : Sessions) (scratch : Scratch) : HOut :=
  match get_token sessions uid with
  | some token =>
    if token = "" then
      ⟨[.reply .welcomeAskEmail], Scratch.empty, sessions, .ASK_EMAIL⟩
    else
      ⟨[.reply .alreadyAuthorized], scratch, sessions, .ASK_ORDER_ID⟩
  | none => ⟨[.reply .welcomeAskEmail], Scratch.empty, sessions, .ASK_EMAIL⟩

/-- Model of `handlers.ask_password` (lines 132-173): reading
`context.user_data['email']` raises `KeyError` when absent, which the
catch-all `except Exception` turns into clearing the scratch and ending;
on a successful authentication the token is saved and the scratch marked
authenticated; on `APIError` or any other exception the scratch is
cleared and the conversation ends. -/
def ask_password (uid : Int) (sessions : Sessions) (scratch : Scratch)
    (auth : AuthResult) : HOut :=
  match scratch.email with
  | none => ⟨[.reply .unexpectedErrorRestart], Scratch.empty, sessions, .END⟩
  | some email =>
    match auth with
    | .ok token =>
      ⟨[.callAuthenticate email, .reply .authSuccess],
       { scratch with authenticated := true }, save_token sessions uid token, .ASK_ORDER_ID⟩
    | .apiErr _ m =>
      ⟨[.callAuthenticate email, .reply (.authFailed m)], Scratch.empty, sessions, .END⟩
    | .exn _ =>
      ⟨[.callAuthenticate email, .reply .unexpectedErrorRestart], Scratch.empty, sessions, .END⟩

/-- Model of `handlers.ask_order_id` (lines 175-252): with no (or falsy)
stored token, clear the scratch and end with the session-expired message
without calling the API; otherwise fetch the order. A 401/403 `APIError`
clears the scratch and ends; other `APIError`s and unexpected exceptions
report and stay. On success, a missing phone reports and stays; else the
payload and phone are stored in the scratch, the summary is formatted
(a formatter exception reaching the catch-all reports and stays, the
scratch mutations already applied), the summary is sent, then the OTP is
issued — failure reports and stays, success moves to `WAITING_FOR_OTP`. -/
def ask_order_id (uid : Int) (order_id : String) (sessions : Sessions)
    (scratch : Scratch) (fetch : FetchResult) (otp : OtpCallResult) : HOut :=
  match get_token sessions uid with
  | none => ⟨[.reply .sessionExpired], Scratch.empty, sessions, .END⟩
  | some token =>
    if token = "" then
      ⟨[.reply .sessionExpired], Scratch.empty, sessions, .END⟩
    else
      match fetch with
      | .exn _ =>
        ⟨[.callGetOrder order_id token, .reply .unexpectedErrorOrder],
         scratch, sessions, .ASK_ORDER_ID⟩
      | .apiErr status m =>
        if status = 401 ∨ status = 403 then
          ⟨[.callGetOrder order_id token, .reply .sessionExpired],
           Scratch.empty, sessions, .END⟩
        else
          ⟨[.callGetOrder order_id token, .reply (.orderFetchError m)],
           scratch, sessions, .ASK_ORDER_ID⟩
      | .ok payload =>
        match extract_phone payload with
        | .error _ =>
          ⟨[.callGetOrder order_id token, .reply .unexpectedErrorOrder],
           scratch, sessions, .ASK_ORDER_ID⟩
        | .ok phone =>
          if pyTruthy phone = false then
            ⟨[.callGetOrder order_id token, .reply .phoneNotFound],
             scratch, sessions, .ASK_ORDER_ID⟩
          else
            let scratch2 := { scratch with current_order := some payload,
                                           customer_phone := some phone }
            match format_order_details payload with
            | .error _ =>
              ⟨[.callGetOrder order_id token, .reply .unexpectedErrorOrder],
               scratch2, sessions, .ASK_ORDER_ID⟩
            | .ok text =>
              match otp with
              | .ok =>
                ⟨[.callGetOrder order_id token, .reply (.orderSummary text),
                  .callCreateOtp phone, .reply .otpSent],
                 scratch2, sessions, .WAITING_FOR_OTP⟩
              | .apiErr _ m =>
                ⟨[.callGetOrder order_id token, .reply (.orderSummary text),
                  .callCreateOtp phone, .reply (.otpSendFailed m)],
                 scratch2, sessions, .ASK_ORDER_ID⟩
              | .exn _ =>
                ⟨[.callGetOrder order_id token, .reply (.orderSummary text),
                  .callCreateOtp phone, .reply .unexpectedErrorOrder],
                 scratch2, sessions, .ASK_ORDER_ID⟩

/-- Model of `handlers.handle_otp` (lines 254-293): with no (or falsy)
stored phone, report a session error and route back to `ASK_ORDER_ID`;
otherwise verify the OTP — `APIError` reports and stays in
`WAITING_FOR_OTP`, an unexpected exception reports and routes back to
`ASK_ORDER_ID`; the scratch is never cleared here. -/
def handle_otp (otp_text : String) (sessions : Sessions) (scratch : Scratch)
    (verify : OtpCallResult) : HOut :=
  match scratch.customer_phone with
  | none => ⟨[.reply .sessionErrorRetry], scratch, sessions, .ASK_ORDER_ID⟩
  | some phone =>
    if pyTruthy phone = false then
      ⟨[.reply .sessionErrorRetry], scratch, sessions, .ASK_ORDER_ID⟩
    else
      match verify with
      | .ok =>
        ⟨[.callVerifyOtp phone otp_text, .reply .otpVerified], scratch, sessions, .ASK_ORDER_ID⟩
      | .apiErr _ m =>
        ⟨[.callVerifyOtp phone otp_text, .reply (.otpInvalid m)], scratch, sessions, .WAITING_FOR_OTP⟩
      | .exn _ =>
        ⟨[.callVerifyOtp phone otp_text, .reply .unexpectedErrorOtp], scratch, sessions, .ASK_ORDER_ID⟩

/-- Model of `handlers.logout` (lines 295-309): delete the stored token,
clear the scratch, end the conversation. -/
def logout (uid : Int) (sessions : Sessions) (scratch : Scratch) : HOut :=
  ⟨[.reply .loggedOut], Scratch.empty, delete_token sessions uid, .END⟩

/-- Model of `handlers.cancel` (lines 311-322): end the conversation
touching neither the scratch nor the session table. -/
def cancel (sessions : Sessions) (scratch : Scratch) : HOut :=
  ⟨[.reply .cancelled], scratch, sessions, .END⟩

/-! ## Concrete inputs used by counterexamples and witnesses -/

/-- A scratch state of a logged-in user mid-conversation. -/
def scratchLoggedIn : Scratch :=
  { email := some "u@e.com", authenticated := true,
    current_order := none, customer_phone := none }

/-- A scratch state holding an email, used by the entry-point counterexample. -/
def scratchWithEmail : Scratch :=
  { email := some "x@y.zz", authenticated := true,
    current_order := none, customer_phone := none }

/-- An order payload whose `data.items` is an int, making the formatter's
`try` body raise while its recovery path succeeds. -/
def badItemsPayload : List (String × PyVal) :=
  [("data", PyVal.dict [("items", PyVal.int 5)])]

/-- A well-formed minimal order payload carrying a customer phone. -/
def phonePayload : PyVal :=
  PyVal.dict [("data", PyVal.dict
    [("id", PyVal.int 42),
     ("customer", PyVal.dict [("phone", PyVal.str "+79990001122")]),
     ("items", PyVal.list [])])]

/-- The summary text the formatter produces for `phonePayload`. -/
def phonePayloadText : String :=
  match format_order_details phonePayload with
  | .ok s => s
  | .error e => e

/-! ## Helper lemmas -/

/-- Filtering away a key makes its lookup absent. -/
theorem lookup_filter_ne_self (sessions : Sessions) (uid : Int) :
    (sessions.filter (fun row => row.1 != uid)).lookup uid = none := by
  induction sessions with
  | nil => rfl
  | cons row rest ih =>
    by_cases h : row.1 = uid
    · simp [List.filter_cons, h, ih]
    · have h2 : (uid == row.1) = false := by simp [Ne.symm h]
      have h3 : (row.1 == uid) = false := by simp [h]
      simp only [List.filter_cons, bne, h3, Bool.not_false, if_true, List.lookup, h2]
      exact ih

/-- Filtering away an absent key leaves the table unchanged. -/
theorem filter_ne_of_lookup_none (sessions : Sessions) (uid : Int)
    (h : sessions.lookup uid = none) :
    sessions.filter (fun row => row.1 != uid) = sessions := by
  induction sessions with
  | nil => rfl
  | cons row rest ih =>
    by_cases hk : row.1 = uid
    · rw [List.lookup, hk] at h
      simp at h
    · have hne : (uid == row.1) = false := by simp [Ne.symm hk]
      rw [List.lookup, hne] at h
      have h3 : (row.1 == uid) = false := by simp [hk]
      simp only [List.filter_cons, bne, h3, Bool.not_false, if_true]
      exact congrArg (List.cons row) (ih h)

/-- Every element of `splits l` concatenates back to `l`. -/
theorem splits_eq_append {α : Type} :
    ∀ {l : List α} {p : List α × List α}, p ∈ splits l → p.1 ++ p.2 = l := by
  intro l
  induction l with
  | nil =>
    intro p hp
    simp [splits] at hp
    simp [hp]
  | cons x xs ih =>
    intro p hp
    simp only [splits, List.mem_cons, List.mem_map] at hp
    rcases hp with rfl | ⟨q, hq, rfl⟩
    · rfl
    · simp [ih hq]

/-- Every way of writing `a ++ b` occurs in `splits (a ++ b)`. -/
theorem mem_splits_append {α : Type} (a b : List α) : (a, b) ∈ splits (a ++ b) := by
  induction a with
  | nil => cases b <;> simp [splits]
  | cons x xs ih =>
    simp only [List.cons_append, splits, List.mem_cons, List.mem_map]
    exact Or.inr ⟨(xs, b), ih, rfl⟩

/-- A boolean-list helper: `!l.isEmpty` holds exactly on nonempty lists. -/
theorem not_list_isEmpty_iff {α : Type} {l : List α} : (!l.isEmpty) = true ↔ l ≠ [] := by
  cases l <;> simp

/-- Characterization of an accepting `'@'` split. -/
theorem atSplitOk_iff (l b : List Char) :
    atSplitOk (l, b) = true ↔
      ∃ c rest, b = c :: rest ∧ c = '@' ∧ l ≠ [] ∧ l.all localChar = true ∧
        (splits rest).any domSplitOk = true := by
  cases b with
  | nil => simp [atSplitOk]
  | cons c rest =>
    simp only [atSplitOk, Bool.and_eq_true, beq_iff_eq, not_list_isEmpty_iff]
    constructor
    · rintro ⟨⟨⟨hc, hl⟩, hlc⟩, hany⟩
      exact ⟨c, rest, rfl, hc, hl, hlc, hany⟩
    · rintro ⟨c', rest', heq, hc, hl, hlc, hany⟩
      obtain ⟨h1, h2⟩ : c = c' ∧ rest = rest' := by
        injection heq with h1 h2; exact ⟨h1, h2⟩
      subst h1; subst h2
      exact ⟨⟨⟨hc, hl⟩, hlc⟩, hany⟩

/-- Characterization of an accepting split at `$`: a tld of at least two
letters, then an empty tail or a single final newline. -/
theorem tldSplitOk_iff (t v : List Char) :
    tldSplitOk (t, v) = true ↔
      2 ≤ t.length ∧ t.all Char.isAlpha = true ∧ (v = [] ∨ v = ['\n']) := by
  simp only [tldSplitOk, dollarOk, Bool.and_eq_true, Bool.or_eq_true, beq_iff_eq,
    decide_eq_true_eq]
  constructor
  · rintro ⟨⟨hlen, hta⟩, hv⟩
    exact ⟨hlen, hta, hv⟩
  · rintro ⟨hlen, hta, hv⟩
    exact ⟨⟨hlen, hta⟩, hv⟩

/-- Characterization of an accepting `'.'` split of the domain remainder. -/
theorem domSplitOk_iff (d b : List Char) :
    domSplitOk (d, b) = true ↔
      ∃ c t, b = c :: t ∧ c = '.' ∧ d ≠ [] ∧ d.all domainChar = true ∧
        (splits t).any tldSplitOk = true := by
  cases b with
  | nil => simp [domSplitOk]
  | cons c t =>
    simp only [domSplitOk, Bool.and_eq_true, beq_iff_eq, not_list_isEmpty_iff]
    constructor
    · rintro ⟨⟨⟨hc, hd⟩, hdc⟩, hany⟩
      exact ⟨c, t, rfl, hc, hd, hdc, hany⟩
    · rintro ⟨c', t', heq, hc, hd, hdc, hany⟩
      obtain ⟨h1, h2⟩ : c = c' ∧ t = t' := by
        injection heq with h1 h2; exact ⟨h1, h2⟩
      subst h1; subst h2
      exact ⟨⟨⟨hc, hd⟩, hdc⟩, hany⟩

/-! ## Claim theorems -/

/-- C1: `cancel` terminates the conversation leaving both the stored
session token and the scratch state unchanged (a load after cancel
returns the same value as before), while `logout` deletes the stored
token and clears the scratch (a load after logout returns absent). -/
theorem cancel_keeps_session_logout_clears (uid : Int) (sessions : Sessions)
    (scratch : Scratch) :
    (cancel sessions scratch).next = ConvState.END ∧
    (cancel sessions scratch).scratch = scratch ∧
    (cancel sessions scratch).sessions = sessions ∧
    get_token (cancel sessions scratch).sessions uid = get_token sessions uid ∧
    (logout uid sessions scratch).next = ConvState.END ∧
    (logout uid sessions scratch).scratch = Scratch.empty ∧
    get_token (logout uid sessions scratch).sessions uid = none :=
  ⟨rfl, rfl, rfl, rfl, rfl, rfl, lookup_filter_ne_self sessions uid⟩

/-- C7: saving a token for a user and then loading it returns exactly
that token, also when a different token was previously stored for the
same user (save is an upsert). -/
theorem save_then_load_roundtrip (sessions : Sessions) (uid : Int) (tok tok' : String) :
    get_token (save_token sessions uid tok) uid = some tok ∧
    get_token (save_token (save_token sessions uid tok') uid tok) uid = some tok := by
  constructor <;> simp [get_token, save_token, List.lookup]

/-- C8: deleting a session and then loading it returns absent, deleting
an absent session is a no-op, and the order-id handler invoked with no
stored session terminates with the session-expired message, clears the
scratch, and emits no API call regardless of the remote oracles. -/
theorem delete_then_absent_terminates (sessions : Sessions) (uid : Int)
    (order_id : String) (scratch : Scratch) (fetch : FetchResult) (otp : OtpCallResult) :
    get_token (delete_token sessions uid) uid = none ∧
    (get_token sessions uid = none → delete_token sessions uid = sessions) ∧
    (get_token sessions uid = none →
      ask_order_id uid order_id sessions scratch fetch otp =
        ⟨[Ev.reply Msg.sessionExpired], Scratch.empty, sessions, ConvState.END⟩) := by
  refine ⟨lookup_filter_ne_self sessions uid,
          fun h => filter_ne_of_lookup_none sessions uid h,
          fun h => ?_⟩
  unfold ask_order_id
  rw [show get_token sessions uid = none from h]

/-- Witness for C8 at a concrete table and user. -/
theorem delete_then_absent_terminates_witness :
    get_token (delete_token [((7 : Int), "tok")] 7) 7 = none ∧
    delete_token ([] : Sessions) 7 = [] ∧
    ask_order_id 7 "42" [] Scratch.empty (FetchResult.ok PyVal.none) OtpCallResult.ok =
      ⟨[Ev.reply Msg.sessionExpired], Scratch.empty, [], ConvState.END⟩ :=
  ⟨(delete_then_absent_terminates [((7 : Int), "tok")] 7 "42" Scratch.empty
      (.ok .none) .ok).1,
   (delete_then_absent_terminates ([] : Sessions) 7 "42" Scratch.empty
      (.ok .none) .ok).2.1 rfl,
   (delete_then_absent_terminates ([] : Sessions) 7 "42" Scratch.empty
      (.ok .none) .ok).2.2 rfl⟩

/-- C10: running the password handler with no stored email in the
scratch does not escape as an exception: the scratch is cleared, the
generic unexpected-error message is sent, and the conversation ends. -/
theorem ask_password_missing_email_safe (uid : Int) (sessions : Sessions)
    (scratch : Scratch) (auth : AuthResult) (h : scratch.email = none) :
    ask_password uid sessions scratch auth =
      ⟨[Ev.reply Msg.unexpectedErrorRestart], Scratch.empty, sessions, ConvState.END⟩ := by
  unfold ask_password
  rw [show scratch.email = none from h]

/-- Witness for C10 on the fresh scratch state. -/
theorem ask_password_missing_email_safe_witness :
    Scratch.empty.email = none ∧
    ask_password 7 [] Scratch.empty (AuthResult.ok "tok") =
      ⟨[Ev.reply Msg.unexpectedErrorRestart], Scratch.empty, [], ConvState.END⟩ :=
  ⟨rfl, ask_password_missing_email_safe 7 [] Scratch.empty (AuthResult.ok "tok") rfl⟩

/-- C6 counterexample: the user with stored token `""` has a session row
(`load` returns `some ""`), yet the entry point sends them to the email
prompt and clears the scratch, because `if token:` treats the empty
string as no session. -/
theorem start_empty_token_cex :
    get_token [((7 : Int), "")] 7 = some "" ∧
    (start 7 [((7 : Int), "")] scratchWithEmail).next = ConvState.ASK_EMAIL ∧
    (start 7 [((7 : Int), "")] scratchWithEmail).scratch = Scratch.empty ∧
    ConvState.ASK_EMAIL ≠ ConvState.ASK_ORDER_ID :=
  ⟨rfl, rfl, rfl, by decide⟩

/-- C6 (amended): for every user whose stored token is non-empty the
entry point transitions directly to the order-id state without touching
the scratch; with no stored token (or an empty-string token, which the
code treats as no session) it clears the scratch and asks for the
email. -/
theorem start_session_shortcircuit (uid : Int) (sessions : Sessions) (scratch : Scratch) :
    (∀ tok, get_token sessions uid = some tok → tok ≠ "" →
      start uid sessions scratch =
        ⟨[Ev.reply Msg.alreadyAuthorized], scratch, sessions, ConvState.ASK_ORDER_ID⟩) ∧
    (get_token sessions uid = none →
      start uid sessions scratch =
        ⟨[Ev.reply Msg.welcomeAskEmail], Scratch.empty, sessions, ConvState.ASK_EMAIL⟩) ∧
    (get_token sessions uid = some "" →
      start uid sessions scratch =
        ⟨[Ev.reply Msg.welcomeAskEmail], Scratch.empty, sessions, ConvState.ASK_EMAIL⟩) := by
  refine ⟨fun tok h hne => ?_, fun h => ?_, fun h => ?_⟩ <;>
    unfold start <;> rw [h]
  · simp [hne]
  · simp

/-- Witness for C6 (amended) at a concrete table and user. -/
theorem start_session_shortcircuit_witness :
    get_token [((7 : Int), "tok")] 7 = some "tok" ∧
    start 7 [((7 : Int), "tok")] scratchLoggedIn =
      ⟨[Ev.reply Msg.alreadyAuthorized], scratchLoggedIn, [((7 : Int), "tok")],
       ConvState.ASK_ORDER_ID⟩ ∧
    get_token ([] : Sessions) 7 = none ∧
    start 7 [] scratchLoggedIn =
      ⟨[Ev.reply Msg.welcomeAskEmail], Scratch.empty, [], ConvState.ASK_EMAIL⟩ :=
  ⟨rfl, (start_session_shortcircuit 7 [((7 : Int), "tok")] scratchLoggedIn).1 "tok" rfl
          (by decide),
   rfl, (start_session_shortcircuit 7 [] scratchLoggedIn).2.1 rfl⟩

/-- C2 counterexample: after a 401 `APIError` during the order fetch the
stored session token is still present — loading it returns the saved
token, not absent as the claim states. -/
theorem ask_order_id_401_keeps_token_cex :
    get_token (ask_order_id 7 "42" [((7 : Int), "tok")] scratchLoggedIn
        (FetchResult.apiErr 401 "Unauthenticated.") OtpCallResult.ok).sessions 7
      = some "tok" ∧
    (some "tok" : Option String) ≠ none :=
  ⟨rfl, by decide⟩

/-- C2 (amended): a 401/403 `APIError` while awaiting the order id clears
the scratch state and terminates the conversation with the
session-expired message, but leaves the stored session token in place —
a subsequent load still returns the same token. -/
theorem ask_order_id_auth_error_clears_scratch_only (uid : Int) (order_id : String)
    (sessions : Sessions) (scratch : Scratch) (tok : String) (st : Int) (m : String)
    (otp : OtpCallResult) (htok : get_token sessions uid = some tok) (hne : tok ≠ "")
    (hst : st = 401 ∨ st = 403) :
    ask_order_id uid order_id sessions scratch (FetchResult.apiErr st m) otp =
      ⟨[Ev.callGetOrder order_id tok, Ev.reply Msg.sessionExpired],
       Scratch.empty, sessions, ConvState.END⟩ ∧
    get_token (ask_order_id uid order_id sessions scratch
        (FetchResult.apiErr st m) otp).sessions uid = some tok := by
  have hmain : ask_order_id uid order_id sessions scratch (FetchResult.apiErr st m) otp =
      ⟨[Ev.callGetOrder order_id tok, Ev.reply Msg.sessionExpired],
       Scratch.empty, sessions, ConvState.END⟩ := by
    unfold ask_order_id
    rw [show get_token sessions uid = some tok from htok]
    rcases hst with rfl | rfl <;> simp [hne]
  exact ⟨hmain, by rw [hmain]; exact htok⟩

/-- Witness for C2 (amended) at a concrete table, user and 401 error. -/
theorem ask_order_id_auth_error_clears_scratch_only_witness :
    get_token [((7 : Int), "tok")] 7 = some "tok" ∧
    ask_order_id 7 "42" [((7 : Int), "tok")] scratchLoggedIn
        (FetchResult.apiErr 401 "Unauthenticated.") OtpCallResult.ok =
      ⟨[Ev.callGetOrder "42" "tok", Ev.reply Msg.sessionExpired],
       Scratch.empty, [((7 : Int), "tok")], ConvState.END⟩ :=
  ⟨rfl, (ask_order_id_auth_error_clears_scratch_only 7 "42" [((7 : Int), "tok")]
      scratchLoggedIn "tok" 401 "Unauthenticated." OtpCallResult.ok rfl (by decide)
      (Or.inl rfl)).1⟩

/-- C3 counterexample: an unexpected (non-`APIError`) exception during
the order-id handler leaves the scratch state untouched — it is not
cleared before the handler returns. -/
theorem unexpected_error_preserves_scratch_cex :
    (ask_order_id 7 "42" [((7 : Int), "tok")] scratchLoggedIn
        (FetchResult.exn "boom") OtpCallResult.ok).scratch = scratchLoggedIn ∧
    scratchLoggedIn ≠ Scratch.empty := by
  refine ⟨rfl, fun h => ?_⟩
  have := congrArg Scratch.email h
  simp [scratchLoggedIn, Scratch.empty] at this

/-- C3 (amended): an unexpected internal error clears the scratch state
only in the password handler (which then terminates); in the order-id
and OTP handlers the scratch is preserved and the conversation is routed
to the order-id state. -/
theorem unexpected_error_scratch_policy (uid : Int) (order_id otp_text : String)
    (sessions : Sessions) (scratch : Scratch) (auth_m fetch_m verify_m : String)
    (otp : OtpCallResult) (tok : String)
    (htok : get_token sessions uid = some tok) (hne : tok ≠ "") :
    ((ask_password uid sessions scratch (AuthResult.exn auth_m)).scratch = Scratch.empty ∧
     (ask_password uid sessions scratch (AuthResult.exn auth_m)).next = ConvState.END) ∧
    ((ask_order_id uid order_id sessions scratch (FetchResult.exn fetch_m) otp).scratch
        = scratch ∧
     (ask_order_id uid order_id sessions scratch (FetchResult.exn fetch_m) otp).next
        = ConvState.ASK_ORDER_ID) ∧
    ((handle_otp otp_text sessions scratch (OtpCallResult.exn verify_m)).scratch = scratch ∧
     (handle_otp otp_text sessions scratch (OtpCallResult.exn verify_m)).next
        = ConvState.ASK_ORDER_ID) := by
  refine ⟨?_, ?_, ?_⟩
  · unfold ask_password
    cases scratch.email <;> simp
  · unfold ask_order_id
    rw [show get_token sessions uid = some tok from htok]
    simp [hne]
  · unfold handle_otp
    cases h : scratch.customer_phone with
    | none => simp
    | some phone => by_cases hp : pyTruthy phone = false <;> simp [hp]

/-- Witness for C3 (amended) at a concrete state. -/
theorem unexpected_error_scratch_policy_witness :
    get_token [((7 : Int), "tok")] 7 = some "tok" ∧
    (ask_password 7 [((7 : Int), "tok")] scratchLoggedIn
        (AuthResult.exn "boom")).scratch = Scratch.empty ∧
    (ask_order_id 7 "42" [((7 : Int), "tok")] scratchLoggedIn
        (FetchResult.exn "boom") OtpCallResult.ok).scratch = scratchLoggedIn ∧
    (handle_otp "1234" [((7 : Int), "tok")] scratchLoggedIn
        (OtpCallResult.exn "boom")).next = ConvState.ASK_ORDER_ID :=
  ⟨rfl,
   (unexpected_error_scratch_policy 7 "42" "1234" [((7 : Int), "tok")] scratchLoggedIn
      "boom" "boom" "boom" OtpCallResult.ok "tok" rfl (by decide)).1.1,
   (unexpected_error_scratch_policy 7 "42" "1234" [((7 : Int), "tok")] scratchLoggedIn
      "boom" "boom" "boom" OtpCallResult.ok "tok" rfl (by decide)).2.1.1,
   (unexpected_error_scratch_policy 7 "42" "1234" [((7 : Int), "tok")] scratchLoggedIn
      "boom" "boom" "boom" OtpCallResult.ok "tok" rfl (by decide)).2.2.2⟩

/-- C9: when the order fetch succeeds, the customer phone is truthy, the
summary formats, and OTP issuance then fails with an `APIError`, the
event trace delivers the formatted order summary strictly before the OTP
failure report, and the conversation stays in the order-id state. -/
theorem otp_failure_after_summary (uid : Int) (order_id : String) (sessions : Sessions)
    (scratch : Scratch) (tok : String) (payload phone : PyVal) (text : String)
    (st : Int) (m : String)
    (htok : get_token sessions uid = some tok) (hne : tok ≠ "")
    (hphone : extract_phone payload = Except.ok phone)
    (htruthy : pyTruthy phone = true)
    (hfmt : format_order_details payload = Except.ok text) :
    ask_order_id uid order_id sessions scratch (FetchResult.ok payload)
        (OtpCallResult.apiErr st m) =
      ⟨[Ev.callGetOrder order_id tok, Ev.reply (Msg.orderSummary text),
        Ev.callCreateOtp phone, Ev.reply (Msg.otpSendFailed m)],
       { scratch with current_order := some payload, customer_phone := some phone },
       sessions, ConvState.ASK_ORDER_ID⟩ := by
  unfold ask_order_id
  rw [show get_token sessions uid = some tok from htok]
  simp [hne, hphone, htruthy, hfmt]

/-- Witness for C9 at a concrete session, payload and failing OTP call. -/
theorem otp_failure_after_summary_witness :
    get_token [((7 : Int), "tok")] 7 = some "tok" ∧
    extract_phone phonePayload = Except.ok (PyVal.str "+79990001122") ∧
    pyTruthy (PyVal.str "+79990001122") = true ∧
    format_order_details phonePayload = Except.ok phonePayloadText ∧
    ask_order_id 7 "42" [((7 : Int), "tok")] Scratch.empty (FetchResult.ok phonePayload)
        (OtpCallResult.apiErr 500 "otp down") =
      ⟨[Ev.callGetOrder "42" "tok", Ev.reply (Msg.orderSummary phonePayloadText),
        Ev.callCreateOtp (PyVal.str "+79990001122"),
        Ev.reply (Msg.otpSendFailed "otp down")],
       { Scratch.empty with current_order := some phonePayload,
                            customer_phone := some (PyVal.str "+79990001122") },
       [((7 : Int), "tok")], ConvState.ASK_ORDER_ID⟩ :=
  ⟨rfl, rfl, rfl, rfl,
   otp_failure_after_summary 7 "42" [((7 : Int), "tok")] Scratch.empty "tok"
     phonePayload (PyVal.str "+79990001122") phonePayloadText 500 "otp down"
     rfl (by decide) rfl rfl rfl⟩

/-- C4 counterexample: the string `a@b_c.de` matches the spec's regex
`^[\w.+-]+@[\w.-]+\.[a-zA-Z]{2,}$` (underscore belongs to `\w`), yet the
code's validator rejects it, because the source's domain class
`[a-zA-Z0-9.-]` contains no underscore. -/
theorem email_spec_regex_cex :
    specRegexMatch "a@b_c.de" ∧ is_valid_email "a@b_c.de" = false := by
  refine ⟨⟨['a'], ['b', '_', 'c'], ['d', 'e'], [], ?_, ?_, ?_, ?_, ?_, ?_, ?_, ?_⟩, ?_⟩ <;>
    decide

/-- C4 (amended): `is_valid_email` accepts every string matching the
source's regex `^[a-zA-Z0-9._%+-]+@[a-zA-Z0-9.-]+\.[a-zA-Z]{2,}$` under
Python's `re.match` semantics (the domain class, unlike the spec's
`[\w.-]`, excludes the underscore; `$` also matches just before a single
trailing newline, so e.g. `"a@b.cc\n"` is accepted), and rejects every
string lacking an `@` and every string not ending — up to an optional
single trailing newline — in a dot followed by a TLD of at least two
letters. -/
theorem is_valid_email_matches_regex (s : String) :
    (∀ l d t v, s.data = l ++ '@' :: (d ++ '.' :: (t ++ v)) → l ≠ [] →
      l.all localChar = true → d ≠ [] → d.all domainChar = true →
      2 ≤ t.length → t.all Char.isAlpha = true → (v = [] ∨ v = ['\n']) →
      is_valid_email s = true) ∧
    ((∀ c ∈ s.data, c ≠ '@') → is_valid_email s = false) ∧
    ((¬ ∃ a t v, s.data = a ++ '.' :: (t ++ v) ∧ 2 ≤ t.length ∧
        t.all Char.isAlpha = true ∧ (v = [] ∨ v = ['\n'])) →
      is_valid_email s = false) := by
  refine ⟨?_, ?_, ?_⟩
  · intro l d t v hs hl hlc hd hdc hlen hta hv
    unfold is_valid_email
    rw [hs]
    exact List.any_eq_true.mpr
      ⟨(l, '@' :: (d ++ '.' :: (t ++ v))), mem_splits_append l _,
       (atSplitOk_iff _ _).mpr ⟨'@', d ++ '.' :: (t ++ v), rfl, rfl, hl, hlc,
         List.any_eq_true.mpr ⟨(d, '.' :: (t ++ v)), mem_splits_append d _,
           (domSplitOk_iff _ _).mpr ⟨'.', t ++ v, rfl, rfl, hd, hdc,
             List.any_eq_true.mpr ⟨(t, v), mem_splits_append t v,
               (tldSplitOk_iff _ _).mpr ⟨hlen, hta, hv⟩⟩⟩⟩⟩⟩
  · intro h
    cases hb : is_valid_email s
    · rfl
    exfalso
    unfold is_valid_email at hb
    obtain ⟨⟨a, b⟩, hmem, hok⟩ := List.any_eq_true.mp hb
    obtain ⟨c, rest, rfl, rfl, -, -, -⟩ := (atSplitOk_iff a b).mp hok
    have happ : a ++ '@' :: rest = s.data := splits_eq_append hmem
    exact h '@' (by rw [← happ]; exact List.mem_append_right a (List.mem_cons_self _ _)) rfl
  · intro hno
    cases hb : is_valid_email s
    · rfl
    exfalso
    apply hno
    unfold is_valid_email at hb
    obtain ⟨⟨l, b⟩, hmem, hok⟩ := List.any_eq_true.mp hb
    obtain ⟨c, rest, rfl, rfl, -, -, hany⟩ := (atSplitOk_iff l b).mp hok
    obtain ⟨⟨d, b2⟩, hmem2, hok2⟩ := List.any_eq_true.mp hany
    obtain ⟨c2, t2, rfl, rfl, -, -, hany2⟩ := (domSplitOk_iff d b2).mp hok2
    obtain ⟨⟨u, v⟩, hmem3, hok3⟩ := List.any_eq_true.mp hany2
    obtain ⟨hlen, hta, hv⟩ := (tldSplitOk_iff u v).mp hok3
    have h1 : l ++ '@' :: rest = s.data := splits_eq_append hmem
    have h2 : d ++ '.' :: t2 = rest := splits_eq_append hmem2
    have h3 : u ++ v = t2 := splits_eq_append hmem3
    refine ⟨l ++ '@' :: d, u, v, ?_, hlen, hta, hv⟩
    rw [← h1, ← h2, ← h3]
    simp [List.append_assoc]

/-- Witness for C4 (amended) on four concrete strings, including the
trailing-newline acceptance. -/
theorem is_valid_email_matches_regex_witness :
    is_valid_email "user@mail.com" = true ∧
    is_valid_email "a@b.cc\n" = true ∧
    is_valid_email "plainaddress" = false ∧
    is_valid_email "user@domain" = false := by
  refine ⟨(is_valid_email_matches_regex "user@mail.com").1
      ['u', 's', 'e', 'r'] ['m', 'a', 'i', 'l'] ['c', 'o', 'm'] []
      (by decide) (by decide) (by decide) (by decide) (by decide) (by decide) (by decide)
      (Or.inl rfl),
    (is_valid_email_matches_regex "a@b.cc\n").1
      ['a'] ['b'] ['c', 'c'] ['\n']
      (by decide) (by decide) (by decide) (by decide) (by decide) (by decide) (by decide)
      (Or.inr rfl),
    (is_valid_email_matches_regex "plainaddress").2.1 (by decide),
    (is_valid_email_matches_regex "user@domain").2.2 ?_⟩
  rintro ⟨a, t, v, heq, -, -, -⟩
  have hdot : '.' ∈ "user@domain".data := by
    rw [heq]; exact List.mem_append_right a (List.mem_cons_self _ _)
  revert hdot
  decide

/-- C5 counterexample: on the non-dict input `None` the formatter does
not return a string — the recovery path's own `order_data.get` raises the
same `AttributeError`, which propagates out of the function. -/
theorem format_order_details_none_raises_cex :
    format_order_details PyVal.none =
      Except.error "'NoneType' object has no attribute 'get'" := rfl

/-- The recovery lookup of the formatter succeeds whenever
`order_data['data']` (with the dict default) is itself a dict. -/
theorem recover_id_dict (kvs dkvs : List (String × PyVal))
    (h : (kvs.lookup "data").getD (PyVal.dict []) = PyVal.dict dkvs) :
    recover_id (PyVal.dict kvs) =
      Except.ok ((dkvs.lookup "id").getD (PyVal.str "N/A")) := by
  unfold recover_id
  have h1 : pyGet (PyVal.dict kvs) "data" (PyVal.dict []) =
      Except.ok (PyVal.dict dkvs) := by
    simp [pyGet, h]
  rw [h1]
  rfl

/-- C5 (amended): for every dict input whose `data` entry (after the dict
default) is itself a dict, the formatter returns a string without
raising, and whenever its `try` body raised, the returned string is the
recovery string embedding the order id (or `N/A`) and the exception
text; for other inputs (a non-dict, or a dict whose `data` is a
non-dict) the recovery path itself raises, as the counterexample shows. -/
theorem format_order_details_total (kvs : List (String × PyVal))
    (hd : ((kvs.lookup "data").getD (PyVal.dict [])).isDict = true) :
    exceptOk (format_order_details (PyVal.dict kvs)) = true ∧
    (∀ e idv, format_body (PyVal.dict kvs) = Except.error e →
      recover_id (PyVal.dict kvs) = Except.ok idv →
      format_order_details (PyVal.dict kvs) =
        Except.ok ("Ошибка форматирования заказа " ++ pyStr idv ++ ": " ++ e)) := by
  obtain ⟨dkvs, hdd⟩ :
      ∃ dkvs, (kvs.lookup "data").getD (PyVal.dict []) = PyVal.dict dkvs := by
    cases hdd : (kvs.lookup "data").getD (PyVal.dict []) <;>
      first
        | exact ⟨_, rfl⟩
        | (rw [hdd] at hd; simp [PyVal.isDict] at hd)
  have hrec := recover_id_dict kvs dkvs hdd
  cases hb : format_body (PyVal.dict kvs) with
  | ok s =>
    refine ⟨?_, ?_⟩
    · unfold format_order_details
      rw [hb]
      rfl
    · intro e idv he _
      exact Except.noConfusion he
  | error e0 =>
    refine ⟨?_, ?_⟩
    · unfold format_order_details
      rw [hb, hrec]
      rfl
    · intro e idv he hr
      injection he with he0
      subst he0
      have hidv : Except.ok ((dkvs.lookup "id").getD (PyVal.str "N/A")) =
          Except.ok idv := hrec.symm.trans hr
      injection hidv with hidv
      subst hidv
      unfold format_order_details
      rw [hb, hrec]

/-- Witness for C5 (amended): a dict payload whose `data.items` is an
int makes the `try` body raise, and the formatter still returns the
recovery string embedding `N/A` and the exception text. -/
theorem format_order_details_total_witness :
    ((badItemsPayload.lookup "data").getD (PyVal.dict [])).isDict = true ∧
    format_body (PyVal.dict badItemsPayload) =
      Except.error "'int' object is not iterable" ∧
    recover_id (PyVal.dict badItemsPayload) = Except.ok (PyVal.str "N/A") ∧
    exceptOk (format_order_details (PyVal.dict badItemsPayload)) = true ∧
    format_order_details (PyVal.dict badItemsPayload) =
      Except.ok "Ошибка форматирования заказа N/A: 'int' object is not iterable" :=
  ⟨rfl, rfl, rfl,
   (format_order_details_total badItemsPayload rfl).1,
   (format_order_details_total badItemsPayload rfl).2
     "'int' object is not iterable" (PyVal.str "N/A") rfl rfl⟩
